import Mathlib

/-!
Shallow embedding of the cursor-pagination core of the chatbox repository
(src/chatbox/pagination.py, src/chatbox/qparams.py, src/chatbox/fields.py,
src/chatbox/querysets.py), together with theorems checking the spec claims.

Modelling conventions:
* Timestamps and message ids are `Nat`; the composite ordering key of an item
  is the pair `(sent_at, message_id)` compared lexicographically, which is how
  the database compares `(sent_at, message_id)` under the composite orderings
  built in `MessageRelatedPagination.paginate_queryset`.
* A queryset is a `List` of items; `filter`, `union all` (++), `order_by`
  (a sort by the composite comparator) and the slice `[:limit]` (`take`)
  mirror the ORM calls one for one.
* Fallible validation is `Except Unit`; raising `ValidationError` is `.error ()`.
-/

namespace Chatbox

/-- A row of the paginated feed, reduced to its ordering fields
`sent_at` (timestamp) and `message_id` (unique id); the payload is irrelevant
to pagination (pagination.py lines 18-19 select exactly these two lookups). -/
structure Item where
  sent_at : Nat
  message_id : Nat
deriving DecidableEq, Repr

/-- The composite ordering key `(sent_at, message_id)` of an item. -/
def Item.key (x : Item) : Nat × Nat := (x.sent_at, x.message_id)

/-- Ascending lexicographic comparison of the composite keys: the order
`order_by('sent_at', 'message_id')` used when `reverse` is true
(pagination.py lines 35-40). -/
def ascLE (x y : Item) : Prop :=
  x.sent_at < y.sent_at ∨ (x.sent_at = y.sent_at ∧ x.message_id ≤ y.message_id)

/-- Descending lexicographic comparison: the order
`order_by('-sent_at', '-message_id')` used when `reverse` is false
(pagination.py lines 41-46). -/
def descLE (x y : Item) : Prop := ascLE y x

/-- Strict ascending lexicographic comparison of composite keys. -/
def ascLT (x y : Item) : Prop :=
  x.sent_at < y.sent_at ∨ (x.sent_at = y.sent_at ∧ x.message_id < y.message_id)

instance : DecidableRel ascLE := fun x y => by unfold ascLE; exact inferInstance

instance : DecidableRel descLE := fun x y => by unfold descLE ascLE; exact inferInstance

instance : DecidableRel ascLT := fun x y => by unfold ascLT; exact inferInstance

instance : IsTotal Item ascLE := ⟨by intro x y; unfold ascLE; omega⟩

instance : IsTrans Item ascLE := ⟨by intro x y z; unfold ascLE; omega⟩

instance : IsTotal Item descLE := ⟨by intro x y; unfold descLE ascLE; omega⟩

instance : IsTrans Item descLE := ⟨by intro x y z; unfold descLE ascLE; omega⟩

/-- The raw `offset_datetime` query parameter as received: either a string
that `float(value)` parses (abstracted to the resulting timestamp) or a
malformed, non-numeric string on which `float` raises. -/
inductive RawTimestamp where
  | numeric (seconds : Nat)
  | malformed
deriving DecidableEq, Repr

/-- fields.py lines 6-13, `UnixTimestampField.to_internal_value`: converts the
numeric value to a datetime; on `ValueError`/`TypeError` (malformed input) the
`except` branch returns `None` instead of raising. -/
def UnixTimestampField.to_internal_value : RawTimestamp → Option Nat
  | .numeric s => some s
  | .malformed => none

/-- The raw `limit` query parameter as received: an integer-parsable value or
a malformed one on which DRF's `IntegerField.to_internal_value` fails. -/
inductive RawLimit where
  | intVal (n : Int)
  | malformed
deriving DecidableEq, Repr

/-- The raw query parameters of a pagination request (qparams.py lines 22-54):
`none` means the parameter is absent from the query string. -/
structure RawQueryParams where
  reverse : Bool
  offset_datetime : Option RawTimestamp
  offset_message_id : Option Nat
  limit : Option RawLimit
deriving DecidableEq, Repr

/-- The serializer's `validated_data` (qparams.py): `offset_datetime` is
`some v` when the key was supplied (`v` being the field's conversion result,
`none` for a malformed timestamp) and `none` when absent. -/
structure ValidatedData where
  reverse : Bool
  offset_datetime : Option (Option Nat)
  offset_message_id : Option Nat
  limit : Nat
deriving DecidableEq, Repr

/-- DRF `IntegerField(default=default_limit, max_value=max_limit, min_value=1)`
(qparams.py lines 50-54): absent means the default, a non-integer raw value or
one outside `[1, max_limit]` raises a `ValidationError`. -/
def IntegerField.run_validation (default_limit max_limit : Nat) :
    Option RawLimit → Except Unit Nat
  | none => .ok default_limit
  | some (.intVal n) =>
      if 1 ≤ n ∧ n ≤ (max_limit : Int) then .ok n.toNat else .error ()
  | some .malformed => .error ()

/-- qparams.py lines 22-54, `MessagePaginationQueryParams` validation
(`serializer.is_valid(raise_exception=True)`): field-level conversion of
`offset_datetime` (UnixTimestampField), `offset_message_id` (UUIDField) and
`limit` (IntegerField), followed by the serializer-level `validate` that
rejects the request when exactly one of `offset_datetime`/`offset_message_id`
is supplied (lines 33-46). -/
def MessagePaginationQueryParams.is_valid (default_limit max_limit : Nat)
    (rp : RawQueryParams) : Except Unit ValidatedData :=
  match IntegerField.run_validation default_limit max_limit rp.limit with
  | .error e => .error e
  | .ok lim =>
      if ((rp.offset_datetime.map UnixTimestampField.to_internal_value).isSome
            && rp.offset_message_id.isNone)
         || ((rp.offset_datetime.map UnixTimestampField.to_internal_value).isNone
            && rp.offset_message_id.isSome) then
        .error ()
      else
        .ok ⟨rp.reverse,
             rp.offset_datetime.map UnixTimestampField.to_internal_value,
             rp.offset_message_id, lim⟩

/-- Branch A of the cursor filter (pagination.py lines 66-71): same timestamp
as the cursor, id strictly beyond the cursor id in the direction given by
`comparison = 'gt' if reverse else 'lt'`. -/
def branchA (reverse : Bool) (T I : Nat) (x : Item) : Bool :=
  x.sent_at == T && (if reverse then I < x.message_id else x.message_id < I)

/-- Branch B of the cursor filter (pagination.py lines 73-75): timestamp
strictly beyond the cursor timestamp in the direction of `comparison`. -/
def branchB (reverse : Bool) (T : Nat) (x : Item) : Bool :=
  if reverse then T < x.sent_at else x.sent_at < T

/-- pagination.py lines 61-80: when `validated_data` holds a truthy
`offset_datetime` (the walrus test, which fails both when the key is absent
and when the field converted a malformed value to `None`), restrict the
queryset to `q1.union(q2, all=True)`, i.e. the concatenation of the two
filter branches; otherwise leave the queryset unfiltered. `validate`
guarantees that `offset_message_id` accompanies a supplied `offset_datetime`. -/
def apply_offset_filter (qp : ValidatedData) (qs : List Item) : List Item :=
  match qp.offset_datetime, qp.offset_message_id with
  | some (some T), some I =>
      qs.filter (branchA qp.reverse T I) ++ qs.filter (branchB qp.reverse T)
  | _, _ => qs

/-- pagination.py lines 35-46 and 86: `order_by` with the direction-dependent
composite ordering, modelled as a sort by the corresponding comparator. -/
def order_by (reverse : Bool) (l : List Item) : List Item :=
  if reverse then l.insertionSort ascLE else l.insertionSort descLE

/-- The response of one pagination round trip: the page items plus the
composite keys embedded in the older/newer links (`get_older_link` and
`get_newer_link` serialize exactly the edge item's timestamp and id into the
URL, pagination.py lines 107-143); `none` models the `null` link returned
when the corresponding edge attribute was never set. -/
structure Page where
  results : List Item
  older : Option (Nat × Nat)
  newer : Option (Nat × Nat)
deriving DecidableEq, Repr

/-- pagination.py lines 61-105: the post-validation body of
`paginate_queryset` followed by the link derivation of
`get_paginated_response`: filter by the cursor, order, slice to `limit`;
an empty result leaves both edge attributes unset (null links); otherwise
the first/last items become the newer/older edges according to `reverse`
(lines 95-103). -/
def paginate_queryset (qp : ValidatedData) (qs : List Item) : Page :=
  match (order_by qp.reverse (apply_offset_filter qp qs)).take qp.limit with
  | [] => ⟨[], none, none⟩
  | x :: xs =>
      if qp.reverse then
        ⟨x :: xs, some x.key, some ((x :: xs).getLast (by simp)).key⟩
      else
        ⟨x :: xs, some ((x :: xs).getLast (by simp)).key, some x.key⟩

/-- The whole request path (pagination.py lines 21-105): validation first
(`is_valid(raise_exception=True)`), so a `ValidationError` aborts the request
before any query runs; only a validated request reaches the queryset. -/
def process_request (default_limit max_limit : Nat) (rp : RawQueryParams)
    (qs : List Item) : Except Unit Page :=
  match MessagePaginationQueryParams.is_valid default_limit max_limit rp with
  | .error e => .error e
  | .ok qp => .ok (paginate_queryset qp qs)

/-- A message row, reduced to the fields `MessageQuerySet.unread` touches
(querysets.py lines 248-282): its chat, timestamp and unique id. -/
structure Message where
  chat : Nat
  sent_at : Nat
  message_id : Nat
deriving DecidableEq, Repr

/-- A Membership row (models.py lines 69-84), reduced to the fields
`MessageQuerySet.unread` touches: user, chat and the last-seen pair. -/
structure Membership where
  user : Nat
  chat : Nat
  last_seen_message_datetime : Nat
  last_seen_message_id : Nat
deriving DecidableEq, Repr

/-- PostgreSQL row comparison `ROW(a, b) >= ROW(c, d)`: lexicographic. -/
def rowGE (a b c d : Nat) : Bool := c < a || (a == c && d ≤ b)

/-- The scalar subquery
`Membership.objects.filter(user=user, chat=chat).values(...)` of
querysets.py lines 277-281: `some (some p)` when exactly one membership row
matches (yielding its last-seen pair), `some none` when none does (the SQL
comparison with an empty subquery is not true for any row), and `none` when
several match (the database raises on a multi-row scalar subquery). -/
def membership_last_seen_subquery (mships : List Membership) (chat user : Nat) :
    Option (Option (Nat × Nat)) :=
  match mships.filter (fun mb => mb.user == user && mb.chat == chat) with
  | [] => some none
  | [mb] => some (some (mb.last_seen_message_datetime, mb.last_seen_message_id))
  | _ => none

/-- querysets.py lines 248-282, `MessageQuerySet.unread`: the messages of
`chat` whose `ROW(sent_at, message_id)` is `>=` the membership's last-seen
pair (tuple comparison via the aliased ROW construct); `none` models the
database error of a multi-row scalar subquery. -/
def MessageQuerySet.unread (msgs : List Message) (mships : List Membership)
    (chat user : Nat) : Option (List Message) :=
  (membership_last_seen_subquery mships chat user).map fun sub =>
    msgs.filter fun m =>
      m.chat == chat &&
        match sub with
        | some (d, i) => rowGE m.sent_at m.message_id d i
        | none => false

/-! ## Helper lemmas shared by the claim theorems -/

/-- The results list of a page is the ordered, cursor-filtered queryset
truncated to the limit. -/
theorem paginate_queryset_results (qp : ValidatedData) (qs : List Item) :
    (paginate_queryset qp qs).results
      = (order_by qp.reverse (apply_offset_filter qp qs)).take qp.limit := by
  unfold paginate_queryset
  split
  · next h => simpa using h.symm
  · next x xs h => split <;> simp [h]

/-- Sorting does not change membership. -/
theorem mem_order_by {x : Item} {l : List Item} {reverse : Bool} :
    x ∈ order_by reverse l ↔ x ∈ l := by
  unfold order_by
  cases reverse <;> simp

/-- Every item on a page comes from the cursor-filtered queryset. -/
theorem mem_results_mem_filtered {x : Item} {qp : ValidatedData} {qs : List Item}
    (h : x ∈ (paginate_queryset qp qs).results) : x ∈ apply_offset_filter qp qs := by
  rw [paginate_queryset_results] at h
  exact mem_order_by.mp (List.mem_of_mem_take h)

/-! ## Claim theorems -/

/-- C1: for every queryset, every cursor (offset_timestamp T, offset_id I)
and every direction flag, the page produced by `paginate_queryset` from that
cursor never contains the item whose ordering key is exactly (T, I):
`offset_id` is exclusive. -/
theorem paginate_excludes_cursor_item (qp : ValidatedData) (qs : List Item)
    (T I : Nat) (hT : qp.offset_datetime = some (some T))
    (hI : qp.offset_message_id = some I) :
    ∀ x ∈ (paginate_queryset qp qs).results,
      ¬(x.sent_at = T ∧ x.message_id = I) := by
  intro x hx hc
  obtain ⟨hts, hid⟩ := hc
  have hf := mem_results_mem_filtered hx
  unfold apply_offset_filter at hf
  rw [hT, hI] at hf
  rcases List.mem_append.mp hf with h1 | h2
  · have hb := (List.mem_filter.mp h1).2
    unfold branchA at hb
    cases hr : qp.reverse <;> rw [hr] at hb <;> simp at hb <;> omega
  · have hb := (List.mem_filter.mp h2).2
    unfold branchB at hb
    cases hr : qp.reverse <;> rw [hr] at hb <;> simp at hb <;> omega

/-- Witness for C1 at a concrete input: the item (5, 7) matching the cursor
is not on the page fetched with that cursor. -/
theorem paginate_excludes_cursor_item_witness :
    ¬((⟨5, 7⟩ : Item) ∈
      (paginate_queryset ⟨false, some (some 5), some 7, 10⟩
        [⟨5, 7⟩, ⟨4, 1⟩]).results) :=
  fun h =>
    paginate_excludes_cursor_item ⟨false, some (some 5), some 7, 10⟩
      [⟨5, 7⟩, ⟨4, 1⟩] 5 7 rfl rfl ⟨5, 7⟩ h ⟨rfl, rfl⟩

/-- No item satisfies both cursor filter branches: branch A pins the
timestamp to the cursor timestamp, branch B moves strictly past it. -/
theorem branchA_branchB_not_both (reverse : Bool) (T I : Nat) (x : Item) :
    ¬(branchA reverse T I x = true ∧ branchB reverse T x = true) := by
  rintro ⟨hA, hB⟩
  unfold branchA at hA
  unfold branchB at hB
  cases reverse <;> simp at hA hB <;> omega

/-- The concatenation of the two branch filters keeps keys duplicate-free. -/
theorem branch_union_key_nodup (reverse : Bool) (T I : Nat) (qs : List Item)
    (hnd : (qs.map Item.key).Nodup) :
    ((qs.filter (branchA reverse T I)
        ++ qs.filter (branchB reverse T)).map Item.key).Nodup := by
  rw [List.map_append, List.nodup_append]
  refine ⟨hnd.sublist ((qs.filter_sublist).map Item.key),
          hnd.sublist ((qs.filter_sublist).map Item.key), ?_⟩
  intro k hk1 hk2
  obtain ⟨a, ha, rfl⟩ := List.mem_map.mp hk1
  obtain ⟨b, hb, hkey⟩ := List.mem_map.mp hk2
  have hA := (List.mem_filter.mp ha).2
  have hB := (List.mem_filter.mp hb).2
  unfold branchA at hA
  unfold branchB at hB
  unfold Item.key at hkey
  rw [Prod.mk.injEq] at hkey
  cases reverse <;> simp at hA hB <;> omega

/-- C9: the two cursor filter branches are mutually exclusive — no item
satisfies both — and hence their `UNION ALL` introduces no duplicate keys
when the queryset has none. -/
theorem filter_branches_disjoint :
    (∀ (reverse : Bool) (T I : Nat) (x : Item),
        ¬(branchA reverse T I x = true ∧ branchB reverse T x = true))
    ∧ ∀ (reverse : Bool) (T I : Nat) (qs : List Item),
        (qs.map Item.key).Nodup →
        ((qs.filter (branchA reverse T I)
            ++ qs.filter (branchB reverse T)).map Item.key).Nodup :=
  ⟨branchA_branchB_not_both, branch_union_key_nodup⟩

/-- Witness for C9: the no-duplicates part applied to a concrete queryset
with distinct keys. -/
theorem filter_branches_disjoint_witness :
    (([⟨1, 1⟩, ⟨2, 2⟩, ⟨2, 3⟩].filter (branchA false 2 3)
        ++ [⟨1, 1⟩, ⟨2, 2⟩, ⟨2, 3⟩].filter (branchB false 2)).map
          Item.key).Nodup :=
  filter_branches_disjoint.2 false 2 3 [⟨1, 1⟩, ⟨2, 2⟩, ⟨2, 3⟩] (by decide)

/-- The cursor filter never introduces duplicate keys. -/
theorem apply_offset_filter_key_nodup (qp : ValidatedData) (qs : List Item)
    (hnd : (qs.map Item.key).Nodup) :
    ((apply_offset_filter qp qs).map Item.key).Nodup := by
  unfold apply_offset_filter
  split
  · exact branch_union_key_nodup _ _ _ _ hnd
  · exact hnd

theorem order_by_true (l : List Item) :
    order_by true l = l.insertionSort ascLE := rfl

theorem order_by_false (l : List Item) :
    order_by false l = l.insertionSort descLE := rfl

/-- A list sorted by the non-strict ascending comparator whose keys are
duplicate-free is strictly ascending. -/
theorem sorted_key_nodup_strict_asc {l : List Item}
    (hs : l.Pairwise ascLE) (hnd : (l.map Item.key).Nodup) :
    l.Pairwise ascLT := by
  have hneq : l.Pairwise fun a b => a.key ≠ b.key := List.pairwise_map.mp hnd
  refine (hs.and hneq).imp ?_
  rintro a b ⟨hle, hne⟩
  unfold ascLE at hle
  unfold ascLT
  rw [Item.key, Item.key, ne_eq, Prod.mk.injEq] at hne
  omega

/-- A list sorted by the non-strict descending comparator whose keys are
duplicate-free is strictly descending. -/
theorem sorted_key_nodup_strict_desc {l : List Item}
    (hs : l.Pairwise descLE) (hnd : (l.map Item.key).Nodup) :
    l.Pairwise fun x y => ascLT y x := by
  have hneq : l.Pairwise fun a b => a.key ≠ b.key := List.pairwise_map.mp hnd
  refine (hs.and hneq).imp ?_
  rintro a b ⟨hle, hne⟩
  unfold descLE ascLE at hle
  unfold ascLT
  rw [Item.key, Item.key, ne_eq, Prod.mk.injEq] at hne
  omega

/-- C4: for every queryset with duplicate-free ordering keys, the items of
the returned page are strictly totally ordered by the composite key
(timestamp, id): ascending when reverse is true, descending when reverse is
false. -/
theorem page_strictly_ordered (qp : ValidatedData) (qs : List Item)
    (hnd : (qs.map Item.key).Nodup) :
    (qp.reverse = true → (paginate_queryset qp qs).results.Pairwise ascLT)
    ∧ (qp.reverse = false →
        (paginate_queryset qp qs).results.Pairwise fun x y => ascLT y x) := by
  have hfk := apply_offset_filter_key_nodup qp qs hnd
  constructor
  · intro hr
    rw [paginate_queryset_results, hr, order_by_true]
    refine List.Pairwise.sublist (List.take_sublist _ _) ?_
    have hperm := List.perm_insertionSort ascLE (apply_offset_filter qp qs)
    exact sorted_key_nodup_strict_asc
      (List.sorted_insertionSort ascLE (apply_offset_filter qp qs))
      (((hperm.map Item.key).nodup_iff).mpr hfk)
  · intro hr
    rw [paginate_queryset_results, hr, order_by_false]
    refine List.Pairwise.sublist (List.take_sublist _ _) ?_
    have hperm := List.perm_insertionSort descLE (apply_offset_filter qp qs)
    exact sorted_key_nodup_strict_desc
      (List.sorted_insertionSort descLE (apply_offset_filter qp qs))
      (((hperm.map Item.key).nodup_iff).mpr hfk)

/-- Witness for C4 at a concrete input: a reverse page is strictly ascending
and a forward page is strictly descending. -/
theorem page_strictly_ordered_witness :
    ((true : Bool) = true →
      (paginate_queryset ⟨true, none, none, 5⟩
        [⟨2, 9⟩, ⟨1, 4⟩, ⟨2, 3⟩]).results.Pairwise ascLT)
    ∧ ((true : Bool) = false →
      (paginate_queryset ⟨true, none, none, 5⟩
        [⟨2, 9⟩, ⟨1, 4⟩, ⟨2, 3⟩]).results.Pairwise fun x y => ascLT y x) :=
  page_strictly_ordered ⟨true, none, none, 5⟩ [⟨2, 9⟩, ⟨1, 4⟩, ⟨2, 3⟩]
    (by decide)

/-- When the ordered, cursor-filtered, truncated queryset is non-empty, the
page is the direction-dependent structure built at pagination.py 95-103. -/
theorem paginate_queryset_cons (qp : ValidatedData) (qs : List Item)
    (a : Item) (l : List Item)
    (hm : (order_by qp.reverse (apply_offset_filter qp qs)).take qp.limit
      = a :: l) :
    paginate_queryset qp qs
      = if qp.reverse then
          ⟨a :: l, some a.key, some ((a :: l).getLast (by simp)).key⟩
        else
          ⟨a :: l, some ((a :: l).getLast (by simp)).key, some a.key⟩ := by
  unfold paginate_queryset
  rw [hm]

/-- C5: for every non-empty result sequence, edge assignment depends on the
direction flag: when reverse is true the first item becomes the older edge
and the last item the newer edge; when reverse is false the last item becomes
the older edge and the first item the newer edge. -/
theorem page_edge_assignment (qp : ValidatedData) (qs : List Item)
    (x : Item) (xs : List Item)
    (h : (paginate_queryset qp qs).results = x :: xs) :
    (qp.reverse = true →
        (paginate_queryset qp qs).older = some x.key ∧
        (paginate_queryset qp qs).newer = some ((x :: xs).getLast (by simp)).key)
    ∧ (qp.reverse = false →
        (paginate_queryset qp qs).older = some ((x :: xs).getLast (by simp)).key ∧
        (paginate_queryset qp qs).newer = some x.key) := by
  rw [paginate_queryset_results] at h
  have hp := paginate_queryset_cons qp qs x xs h
  constructor <;> intro hr <;> rw [hr] at hp <;> simp at hp <;> rw [hp]
  · exact ⟨rfl, rfl⟩
  · exact ⟨rfl, rfl⟩

/-- Witness for C5 at a concrete input. -/
theorem page_edge_assignment_witness :
    ((false : Bool) = true →
        (paginate_queryset ⟨false, none, none, 5⟩ [⟨1, 4⟩, ⟨2, 9⟩]).older
          = some (Item.key ⟨2, 9⟩) ∧
        (paginate_queryset ⟨false, none, none, 5⟩ [⟨1, 4⟩, ⟨2, 9⟩]).newer
          = some (([⟨2, 9⟩, ⟨1, 4⟩] : List Item).getLast (by simp)).key)
    ∧ ((false : Bool) = false →
        (paginate_queryset ⟨false, none, none, 5⟩ [⟨1, 4⟩, ⟨2, 9⟩]).older
          = some (([⟨2, 9⟩, ⟨1, 4⟩] : List Item).getLast (by simp)).key ∧
        (paginate_queryset ⟨false, none, none, 5⟩ [⟨1, 4⟩, ⟨2, 9⟩]).newer
          = some (Item.key ⟨2, 9⟩)) :=
  page_edge_assignment ⟨false, none, none, 5⟩ [⟨1, 4⟩, ⟨2, 9⟩] ⟨2, 9⟩ [⟨1, 4⟩]
    (by decide)

/-- An empty cursor-filtered queryset yields the empty page with no edges. -/
theorem paginate_empty_of_filter_empty (qp : ValidatedData) (qs : List Item)
    (h : apply_offset_filter qp qs = []) :
    paginate_queryset qp qs = ⟨[], none, none⟩ := by
  unfold paginate_queryset
  rw [h]
  have hob : order_by qp.reverse [] = [] := by
    unfold order_by; cases qp.reverse <;> rfl
  rw [hob, List.take_nil]

/-- C6: for every request whose filtered result set is empty (including an
empty backing collection), the page has an empty results list and both the
older and the newer link are null (no edge keys set). -/
theorem empty_result_null_links (qp : ValidatedData) (qs : List Item)
    (h : apply_offset_filter qp qs = []) :
    paginate_queryset qp qs = ⟨[], none, none⟩
    ∧ ∀ qp2 : ValidatedData, paginate_queryset qp2 [] = ⟨[], none, none⟩ := by
  refine ⟨paginate_empty_of_filter_empty qp qs h, fun qp2 => ?_⟩
  refine paginate_empty_of_filter_empty qp2 [] ?_
  unfold apply_offset_filter
  split
  · rfl
  · rfl

/-- Witness for C6 at a concrete input: a cursor past the whole dataset. -/
theorem empty_result_null_links_witness :
    paginate_queryset ⟨false, some (some 1), some 1, 5⟩ [⟨1, 1⟩, ⟨2, 2⟩]
        = ⟨[], none, none⟩
    ∧ ∀ qp2 : ValidatedData, paginate_queryset qp2 [] = ⟨[], none, none⟩ :=
  empty_result_null_links ⟨false, some (some 1), some 1, 5⟩ [⟨1, 1⟩, ⟨2, 2⟩]
    (by decide)

/-- C7: `offset_datetime` and `offset_message_id` must be jointly present or
jointly absent; when exactly one of the two is supplied, validation fails and
no query is executed (the whole request errors for every backing queryset). -/
theorem cursor_pair_joint_presence (default_limit max_limit : Nat)
    (rp : RawQueryParams)
    (h : rp.offset_datetime.isSome ≠ rp.offset_message_id.isSome) :
    MessagePaginationQueryParams.is_valid default_limit max_limit rp
        = .error ()
    ∧ ∀ qs : List Item,
        process_request default_limit max_limit rp qs = .error () := by
  have hv : MessagePaginationQueryParams.is_valid default_limit max_limit rp
      = .error () := by
    unfold MessagePaginationQueryParams.is_valid
    cases hl : IntegerField.run_validation default_limit max_limit rp.limit with
    | error e => cases e; rfl
    | ok lim =>
        rcases hd : rp.offset_datetime with _ | d <;>
          rcases hm : rp.offset_message_id with _ | m <;>
            rw [hd, hm] at h <;> simp at h <;> simp
  refine ⟨hv, fun qs => ?_⟩
  unfold process_request
  rw [hv]

/-- Witness for C7 at a concrete input: a lone `offset_datetime`. -/
theorem cursor_pair_joint_presence_witness :
    MessagePaginationQueryParams.is_valid 20 200
        ⟨false, some (.numeric 5), none, none⟩ = .error ()
    ∧ ∀ qs : List Item,
        process_request 20 200 ⟨false, some (.numeric 5), none, none⟩ qs
          = .error () :=
  cursor_pair_joint_presence 20 200 ⟨false, some (.numeric 5), none, none⟩
    (by decide)

/-- C8: a supplied limit must be an integer in [1, max_limit]; out-of-range
or non-integer values are rejected (never clamped), an in-range value is
used as given, an absent limit defaults to default_limit, and a page never
holds more than the validated limit of items. -/
theorem limit_validation (default_limit max_limit : Nat) (rp : RawQueryParams) :
    (∀ n : Int, rp.limit = some (.intVal n) →
        (n < 1 ∨ (max_limit : Int) < n) →
        MessagePaginationQueryParams.is_valid default_limit max_limit rp
          = .error ())
    ∧ (rp.limit = some .malformed →
        MessagePaginationQueryParams.is_valid default_limit max_limit rp
          = .error ())
    ∧ (∀ (n : Int) (v : ValidatedData), rp.limit = some (.intVal n) →
        MessagePaginationQueryParams.is_valid default_limit max_limit rp
          = .ok v →
        1 ≤ n ∧ n ≤ (max_limit : Int) ∧ v.limit = n.toNat)
    ∧ (∀ v : ValidatedData, rp.limit = none →
        MessagePaginationQueryParams.is_valid default_limit max_limit rp
          = .ok v →
        v.limit = default_limit)
    ∧ (∀ (qp : ValidatedData) (qs : List Item),
        (paginate_queryset qp qs).results.length ≤ qp.limit) := by
  refine ⟨?_, ?_, ?_, ?_, ?_⟩
  · intro n hn hout
    have hcond : ¬(1 ≤ n ∧ n ≤ (max_limit : Int)) := by omega
    simp [MessagePaginationQueryParams.is_valid,
          IntegerField.run_validation, hn, hcond]
  · intro hm
    simp [MessagePaginationQueryParams.is_valid,
          IntegerField.run_validation, hm]
  · intro n v hn hok
    unfold MessagePaginationQueryParams.is_valid at hok
    rw [hn] at hok
    by_cases hc : 1 ≤ n ∧ n ≤ (max_limit : Int)
    · refine ⟨hc.1, hc.2, ?_⟩
      have hrv : IntegerField.run_validation default_limit max_limit
          (some (.intVal n)) = .ok n.toNat := by
        show (if 1 ≤ n ∧ n ≤ (max_limit : Int) then
            (Except.ok n.toNat : Except Unit Nat) else .error ()) = .ok n.toNat
        rw [if_pos hc]
      rw [hrv] at hok
      by_cases hp : (((rp.offset_datetime.map
              UnixTimestampField.to_internal_value).isSome
            && rp.offset_message_id.isNone)
          || ((rp.offset_datetime.map
              UnixTimestampField.to_internal_value).isNone
            && rp.offset_message_id.isSome)) = true
      · simp only [hp] at hok
        simp at hok
      · simp only [hp] at hok
        simp at hok
        rw [← hok]
    · have hrv : IntegerField.run_validation default_limit max_limit
          (some (.intVal n)) = .error () := by
        show (if 1 ≤ n ∧ n ≤ (max_limit : Int) then
            (Except.ok n.toNat : Except Unit Nat) else .error ()) = .error ()
        rw [if_neg hc]
      rw [hrv] at hok
      exact absurd hok (by simp)
  · intro v hn hok
    unfold MessagePaginationQueryParams.is_valid at hok
    rw [hn] at hok
    rw [show IntegerField.run_validation default_limit max_limit none
          = .ok default_limit from rfl] at hok
    by_cases hp : (((rp.offset_datetime.map
            UnixTimestampField.to_internal_value).isSome
          && rp.offset_message_id.isNone)
        || ((rp.offset_datetime.map
            UnixTimestampField.to_internal_value).isNone
          && rp.offset_message_id.isSome)) = true
    · simp only [hp] at hok
      simp at hok
    · simp only [hp] at hok
      simp at hok
      rw [← hok]
  · intro qp qs
    rw [paginate_queryset_results]
    simp [List.length_take]

/-- Witness for C8 at concrete inputs: limit 201 with max 200 is rejected. -/
theorem limit_validation_witness :
    MessagePaginationQueryParams.is_valid 20 200
        ⟨false, none, none, some (.intVal 201)⟩ = .error () :=
  (limit_validation 20 200 ⟨false, none, none, some (.intVal 201)⟩).1 201 rfl
    (by decide)

/-- C2: on the dataset with timestamps [T1, T1, T2] and ids [A, B, C] where
T1 < T2 and A < B, a request with limit 2, reverse false and no cursor
returns C(T2), B(T1) with older cursor (T1, B); the follow-up request with
cursor (T1, B) and reverse false returns exactly A(T1). -/
theorem tie_break_scenario (T1 T2 A B C : Nat) (h12 : T1 < T2) (hAB : A < B) :
    (paginate_queryset ⟨false, none, none, 2⟩
        [⟨T1, A⟩, ⟨T1, B⟩, ⟨T2, C⟩]).results = [⟨T2, C⟩, ⟨T1, B⟩]
    ∧ (paginate_queryset ⟨false, none, none, 2⟩
        [⟨T1, A⟩, ⟨T1, B⟩, ⟨T2, C⟩]).older = some (T1, B)
    ∧ (paginate_queryset ⟨false, some (some T1), some B, 2⟩
        [⟨T1, A⟩, ⟨T1, B⟩, ⟨T2, C⟩]).results = [⟨T1, A⟩] := by
  have hba : ¬ descLE ⟨T1, A⟩ ⟨T1, B⟩ := by simp [descLE, ascLE]; omega
  have hca : ¬ descLE ⟨T1, A⟩ ⟨T2, C⟩ := by simp [descLE, ascLE]; omega
  have hcb : ¬ descLE ⟨T1, B⟩ ⟨T2, C⟩ := by simp [descLE, ascLE]; omega
  have hsort : List.insertionSort descLE [⟨T1, A⟩, ⟨T1, B⟩, ⟨T2, C⟩]
      = [⟨T2, C⟩, ⟨T1, B⟩, ⟨T1, A⟩] := by
    simp [List.insertionSort, List.orderedInsert, hba, hca, hcb]
  have happly : apply_offset_filter ⟨false, none, none, 2⟩
      [⟨T1, A⟩, ⟨T1, B⟩, ⟨T2, C⟩] = [⟨T1, A⟩, ⟨T1, B⟩, ⟨T2, C⟩] := rfl
  have hpage : paginate_queryset ⟨false, none, none, 2⟩
      [⟨T1, A⟩, ⟨T1, B⟩, ⟨T2, C⟩]
      = ⟨[⟨T2, C⟩, ⟨T1, B⟩], some (T1, B), some (T2, C)⟩ := by
    have hm : (order_by (⟨false, none, none, 2⟩ : ValidatedData).reverse
        (apply_offset_filter ⟨false, none, none, 2⟩
          [⟨T1, A⟩, ⟨T1, B⟩, ⟨T2, C⟩])).take
            (⟨false, none, none, 2⟩ : ValidatedData).limit
        = [⟨T2, C⟩, ⟨T1, B⟩] := by
      rw [happly]
      show (List.insertionSort descLE [⟨T1, A⟩, ⟨T1, B⟩, ⟨T2, C⟩]).take 2 = _
      rw [hsort]
      rfl
    rw [paginate_queryset_cons ⟨false, none, none, 2⟩
      [⟨T1, A⟩, ⟨T1, B⟩, ⟨T2, C⟩] ⟨T2, C⟩ [⟨T1, B⟩] hm]
    simp [Item.key]
  have hT2T1 : (T2 == T1) = false := by simp; omega
  have hfA : List.filter (branchA false T1 B) [⟨T1, A⟩, ⟨T1, B⟩, ⟨T2, C⟩]
      = [⟨T1, A⟩] := by
    simp [List.filter, branchA, hAB, hT2T1]
  have hfB : List.filter (branchB false T1) [⟨T1, A⟩, ⟨T1, B⟩, ⟨T2, C⟩]
      = [] := by
    have h22 : ¬ (T2 < T1) := by omega
    simp [List.filter, branchB, h22]
  have happly2 : apply_offset_filter ⟨false, some (some T1), some B, 2⟩
      [⟨T1, A⟩, ⟨T1, B⟩, ⟨T2, C⟩] = [⟨T1, A⟩] := by
    show List.filter (branchA false T1 B) [⟨T1, A⟩, ⟨T1, B⟩, ⟨T2, C⟩]
        ++ List.filter (branchB false T1) [⟨T1, A⟩, ⟨T1, B⟩, ⟨T2, C⟩] = _
    rw [hfA, hfB]
    rfl
  have hres2 : (paginate_queryset ⟨false, some (some T1), some B, 2⟩
      [⟨T1, A⟩, ⟨T1, B⟩, ⟨T2, C⟩]).results = [⟨T1, A⟩] := by
    rw [paginate_queryset_results]
    rw [happly2]
    rfl
  exact ⟨by rw [hpage], by rw [hpage], hres2⟩

/-- Witness for C2 at concrete values T1 = 1, T2 = 2, A = 10, B = 11, C = 12. -/
theorem tie_break_scenario_witness :
    (paginate_queryset ⟨false, none, none, 2⟩
        [⟨1, 10⟩, ⟨1, 11⟩, ⟨2, 12⟩]).results = [⟨2, 12⟩, ⟨1, 11⟩]
    ∧ (paginate_queryset ⟨false, none, none, 2⟩
        [⟨1, 10⟩, ⟨1, 11⟩, ⟨2, 12⟩]).older = some (1, 11)
    ∧ (paginate_queryset ⟨false, some (some 1), some 11, 2⟩
        [⟨1, 10⟩, ⟨1, 11⟩, ⟨2, 12⟩]).results = [⟨1, 10⟩] :=
  tie_break_scenario 1 2 10 11 12 (by decide) (by decide)

/-- A validated request whose `offset_datetime` key holds a `None` value
(malformed timestamp) skips the cursor filter entirely, because the walrus
test in pagination.py line 61 is falsy on `None`. -/
theorem apply_offset_filter_none_cursor (qp : ValidatedData)
    (h : qp.offset_datetime = some none) (qs : List Item) :
    apply_offset_filter qp qs = qs := by
  rcases hmi : qp.offset_message_id with _ | m <;>
    unfold apply_offset_filter <;> rw [h, hmi]

/-- A successful validation stores the field conversion result of
`offset_datetime`, whatever it is, into `validated_data`. -/
theorem is_valid_ok_offset (default_limit max_limit : Nat)
    (rp : RawQueryParams) (v : ValidatedData)
    (hok : MessagePaginationQueryParams.is_valid default_limit max_limit rp
      = .ok v) :
    v.offset_datetime
      = rp.offset_datetime.map UnixTimestampField.to_internal_value := by
  unfold MessagePaginationQueryParams.is_valid at hok
  cases hl : IntegerField.run_validation default_limit max_limit rp.limit with
  | error e => rw [hl] at hok; exact absurd hok (by simp)
  | ok lim =>
      rw [hl] at hok
      by_cases hp : (((rp.offset_datetime.map
              UnixTimestampField.to_internal_value).isSome
            && rp.offset_message_id.isNone)
          || ((rp.offset_datetime.map
              UnixTimestampField.to_internal_value).isNone
            && rp.offset_message_id.isSome)) = true
      · simp only [hp] at hok
        simp at hok
      · simp only [hp] at hok
        simp at hok
        rw [← hok]

/-- C3 counterexample: the request with the malformed timestamp, an
`offset_message_id` and limit 5 is NOT rejected — validation succeeds
(`UnixTimestampField.to_internal_value` swallows the parse failure and
returns `None`) and the query runs, returning a full page. This refutes the
claim that every malformed `offset_datetime` raises a validation error
before any query runs. -/
theorem malformed_timestamp_not_rejected :
    MessagePaginationQueryParams.is_valid 20 200
        ⟨false, some .malformed, some 42, some (.intVal 5)⟩
      = .ok ⟨false, some none, some 42, 5⟩
    ∧ process_request 20 200
        ⟨false, some .malformed, some 42, some (.intVal 5)⟩ [⟨1, 1⟩]
      = .ok ⟨[⟨1, 1⟩], some (1, 1), some (1, 1)⟩ := by
  constructor
  · rfl
  · rfl

/-- C3 amended: a malformed (non-numeric) `offset_datetime` does not raise a
validation error by itself; the field converts it to `None`, and every
request that passes validation with it is processed exactly as if no cursor
had been supplied (the offset filter is skipped). The outcome is a
deterministic function of the input. -/
theorem malformed_timestamp_treated_as_no_cursor (default_limit max_limit : Nat)
    (rp : RawQueryParams) (v : ValidatedData)
    (hm : rp.offset_datetime = some .malformed)
    (hok : MessagePaginationQueryParams.is_valid default_limit max_limit rp
      = .ok v) :
    v.offset_datetime = some none
    ∧ ∀ qs : List Item,
        paginate_queryset v qs
          = paginate_queryset ⟨v.reverse, none, none, v.limit⟩ qs := by
  have h1 : v.offset_datetime = some none := by
    rw [is_valid_ok_offset default_limit max_limit rp v hok, hm]
    rfl
  refine ⟨h1, fun qs => ?_⟩
  unfold paginate_queryset
  rw [apply_offset_filter_none_cursor v h1 qs]
  rw [show apply_offset_filter ⟨v.reverse, none, none, v.limit⟩ qs = qs
    from rfl]

/-- Witness for the amended C3 at a concrete input. -/
theorem malformed_timestamp_treated_as_no_cursor_witness :
    (⟨false, some none, some 42, 5⟩ : ValidatedData).offset_datetime = some none
    ∧ ∀ qs : List Item,
        paginate_queryset ⟨false, some none, some 42, 5⟩ qs
          = paginate_queryset ⟨false, none, none, 5⟩ qs :=
  malformed_timestamp_treated_as_no_cursor 20 200
    ⟨false, some .malformed, some 42, some (.intVal 5)⟩
    ⟨false, some none, some 42, 5⟩ rfl rfl

/-- C10: for every chat, user and unique matching membership with last-seen
pair (D, I), `MessageQuerySet.unread` returns exactly the messages of the
chat whose (sent_at, message_id) is lexicographically greater than or equal
to (D, I); in particular the message whose key equals the last-seen pair is
itself included. -/
theorem unread_includes_last_seen (msgs : List Message)
    (mships : List Membership) (chat user : Nat) (mb : Membership)
    (hq : mships.filter (fun mb2 => mb2.user == user && mb2.chat == chat)
      = [mb]) :
    ∃ L, MessageQuerySet.unread msgs mships chat user = some L
      ∧ (∀ m : Message, m ∈ L ↔ m ∈ msgs ∧ m.chat = chat ∧
          (mb.last_seen_message_datetime < m.sent_at ∨
            (m.sent_at = mb.last_seen_message_datetime ∧
              mb.last_seen_message_id ≤ m.message_id)))
      ∧ ∀ m ∈ msgs, m.chat = chat →
          m.sent_at = mb.last_seen_message_datetime →
          m.message_id = mb.last_seen_message_id → m ∈ L := by
  have hsub : membership_last_seen_subquery mships chat user
      = some (some (mb.last_seen_message_datetime,
          mb.last_seen_message_id)) := by
    unfold membership_last_seen_subquery
    rw [hq]
  refine ⟨msgs.filter (fun m => m.chat == chat
      && rowGE m.sent_at m.message_id mb.last_seen_message_datetime
          mb.last_seen_message_id), ?_, ?_, ?_⟩
  · unfold MessageQuerySet.unread
    rw [hsub]
    rfl
  · intro m
    simp [List.mem_filter, rowGE, and_assoc]
  · intro m hmem hc hts hid
    rw [List.mem_filter]
    refine ⟨hmem, ?_⟩
    simp [rowGE]
    omega

/-- Witness for C10 at a concrete input: the exact last-seen message (chat 7,
sent_at 5, id 9) is in the unread set. -/
theorem unread_includes_last_seen_witness :
    ∃ L, MessageQuerySet.unread [⟨7, 5, 9⟩, ⟨7, 6, 1⟩] [⟨3, 7, 5, 9⟩] 7 3
        = some L
      ∧ (∀ m : Message, m ∈ L ↔ m ∈ [⟨7, 5, 9⟩, ⟨7, 6, 1⟩] ∧ m.chat = 7 ∧
          (5 < m.sent_at ∨ (m.sent_at = 5 ∧ 9 ≤ m.message_id)))
      ∧ ∀ m ∈ ([⟨7, 5, 9⟩, ⟨7, 6, 1⟩] : List Message), m.chat = 7 →
          m.sent_at = 5 → m.message_id = 9 → m ∈ L :=
  unread_includes_last_seen [⟨7, 5, 9⟩, ⟨7, 6, 1⟩] [⟨3, 7, 5, 9⟩] 7 3
    ⟨3, 7, 5, 9⟩ (by decide)

end Chatbox
